import Mathlib

/-!
# Verification of the `subinterpreters` runtime specification

The repository ships a single usage example (`src/examples/simple.py`) that
calls `create_interpreter()` and `SubInterpreter.run_code(source)`.  The
runtime library itself (Interpreter Registry, Interpreter Context, Execution
Engine, Runtime Coordinator) is not part of the sources, so the components
below are modelled from the specification and the claims are settled against
this model.
-/

namespace SubInterp

/-- A value stored in an interpreter namespace.  The spec treats the
namespace abstractly as a mapping from name to value; numbers suffice for
the observable behaviours the spec describes. -/
abbrev Value := Nat

/-- Modelled from the spec: a Namespace is a "mapping from name to value
representing global scope of one interpreter".  Represented as an
association list; the most recent binding of a name shadows older ones. -/
abbrev NameSpace := List (String × Value)

/-- Look a name up in a namespace; the most recent binding wins.
Lookup-miss behaviour is defined (`none`), matching the spec's "defined
lookup-miss behavior (`RuntimeFault`), not silent creation". -/
def nsLookup (ns : NameSpace) (x : String) : Option Value :=
  match ns with
  | [] => none
  | (y, v) :: rest => if y = x then some v else nsLookup rest x

/-- Bind a name in a namespace. -/
def nsSet (ns : NameSpace) (x : String) (v : Value) : NameSpace :=
  (x, v) :: ns

/-- Modelled from the spec: an Interpreter Context "owns a root namespace
(mapping from name to value, isolated per interpreter), an independent
loaded-module cache, and interpreter-local configuration".  The module
cache is carried for fidelity; the claims only exercise the namespace. -/
structure Context where
  globals : NameSpace
  moduleCache : List String
deriving DecidableEq, Repr

/-- A freshly initialized Context: an isolated baseline namespace shared by
reference with no other Context. -/
def Context.init : Context := { globals := [], moduleCache := [] }

/-- Modelled from the spec: the error taxonomy of section 7. -/
inductive ErrKind where
  | UnknownInterpreter
  | ResourceExhausted
  | ContextDestroyed
  | CompileError
  | RuntimeFault
  | Timeout
  | ContextBusy
deriving DecidableEq, Repr

/-- Modelled from the spec: an `ExecutionResult` is "either a success marker
with any produced side effects (e.g., console output) or a structured error
describing a failure inside the executed code", surfaced to the caller as
`ok` with captured output or `error` with kind and message. -/
inductive ExecutionResult where
  | ok (output : List String)
  | error (kind : ErrKind) (message : String)
deriving DecidableEq, Repr

/-- Modelled from the spec: the spec excludes the full surface language
("this spec does not cover a full language implementation"), so the unit of
source code is modelled by a minimal statement language rich enough for the
observable behaviours the spec names: defining a name, referencing a name,
producing console output, and raising a runtime fault. -/
inductive Stmt where
  | assignLit (x : String) (n : Value)
  | assignVar (x y : String)
  | printLit (n : Value)
  | printVar (x : String)
  | raiseMsg (msg : String)
deriving DecidableEq, Repr

/-- Horizontal whitespace, stripped from the ends of a source line. -/
def isSpaceChar (c : Char) : Bool := c = ' ' || c = '\t' || c = '\r'

/-- Strip surrounding whitespace from a line of characters. -/
def trimChars (cs : List Char) : List Char :=
  ((cs.dropWhile isSpaceChar).reverse.dropWhile isSpaceChar).reverse

/-- Split a character stream into lines at newline characters. -/
def splitLines : List Char → List (List Char)
  | [] => [[]]
  | c :: cs =>
    if c = '\n' then [] :: splitLines cs
    else
      match splitLines cs with
      | [] => [[c]]
      | l :: ls => (c :: l) :: ls

/-- `stripHead pat cs` removes the literal head `pat` from `cs`, returning
the remainder, or `none` when `cs` does not begin with `pat`. -/
def stripHead : List Char → List Char → Option (List Char)
  | [], cs => some cs
  | _ :: _, [] => none
  | p :: ps, c :: cs => if c = p then stripHead ps cs else none

/-- `stripLast cs c` removes a final literal `c` from `cs`, or fails. -/
def stripLast (cs : List Char) (c : Char) : Option (List Char) :=
  match cs.reverse with
  | [] => none
  | d :: rest => if d = c then some rest.reverse else none

/-- Split a line at the first ` = ` into assignment target and expression. -/
def splitAssign : List Char → Option (List Char × List Char)
  | [] => none
  | c :: cs =>
    match stripHead (" = ".data) (c :: cs) with
    | some rest => some ([], rest)
    | none =>
      match splitAssign cs with
      | some (l, r) => some (c :: l, r)
      | none => none

/-- The decimal value of a digit character, if it is one. -/
def digitVal (c : Char) : Option Nat :=
  if '0' ≤ c && c ≤ '9' then some (c.toNat - '0'.toNat) else none

/-- Accumulate the decimal value of a digit string. -/
def natOfCharsAux (acc : Nat) : List Char → Option Nat
  | [] => some acc
  | c :: cs =>
    match digitVal c with
    | some d => natOfCharsAux (10 * acc + d) cs
    | none => none

/-- Read a nonempty decimal literal. -/
def natOfChars : List Char → Option Nat
  | [] => none
  | cs => natOfCharsAux 0 cs

/-- A character allowed in a name of the modelled surface language. -/
def identChar (c : Char) : Bool :=
  c = '_' || ('a' ≤ c && c ≤ 'z') || ('A' ≤ c && c ≤ 'Z')

/-- A name: nonempty, made of letters and underscores. -/
def isIdentChars (cs : List Char) : Bool :=
  !cs.isEmpty && cs.all identChar

/-- Compile one source line into at most one statement.  Lines are trimmed
of surrounding whitespace (matching the usage in `src/examples/simple.py`,
which passes uniformly indented source); a blank line compiles to nothing;
an unrecognized line is a compile fault. -/
def compileLine (line : List Char) : Except String (Option Stmt) :=
  match trimChars line with
  | [] => .ok none
  | t₀ :: ts =>
    let t := t₀ :: ts
    match stripHead ("print(".data) t with
    | some rest =>
      match stripLast rest ')' with
      | some inner =>
        match natOfChars inner with
        | some n => .ok (some (.printLit n))
        | none =>
          if isIdentChars inner then .ok (some (.printVar (String.mk inner)))
          else .error ("invalid expression: " ++ String.mk inner)
      | none => .error ("invalid statement: " ++ String.mk t)
    | none =>
      match stripHead ("raise ".data) t with
      | some rest => .ok (some (.raiseMsg (String.mk rest)))
      | none =>
        match splitAssign t with
        | some (lhs, rhs) =>
          if isIdentChars lhs then
            match natOfChars rhs with
            | some n => .ok (some (.assignLit (String.mk lhs) n))
            | none =>
              if isIdentChars rhs then
                .ok (some (.assignVar (String.mk lhs) (String.mk rhs)))
              else .error ("invalid expression: " ++ String.mk rhs)
          else .error ("invalid assignment target: " ++ String.mk lhs)
        | none => .error ("invalid statement: " ++ String.mk t)

/-- Compile a list of source lines into a program, failing on the first
faulty line. -/
def compileLines : List (List Char) → Except String (List Stmt)
  | [] => .ok []
  | line :: rest =>
    match compileLine line with
    | .error e => .error e
    | .ok none => compileLines rest
    | .ok (some s) =>
      match compileLines rest with
      | .error e => .error e
      | .ok prog => .ok (s :: prog)

/-- Modelled from the spec: the compile/parse phase of the Execution
Engine.  Source is split into lines and compiled line by line; the empty
source string compiles to the empty program. -/
def compile (source : String) : Except String (List Stmt) :=
  compileLines (splitLines source.data)

/-- Evaluate one statement against a namespace: either a new namespace plus
any produced output, or a runtime fault (kind, message). -/
def evalStmt (ns : NameSpace) : Stmt → Except (String × String) (NameSpace × List String)
  | .assignLit x n => .ok (nsSet ns x n, [])
  | .assignVar x y =>
    match nsLookup ns y with
    | some v => .ok (nsSet ns x v, [])
    | none => .error ("NameError", "name " ++ y ++ " is not defined")
  | .printLit n => .ok (ns, [toString n])
  | .printVar x =>
    match nsLookup ns x with
    | some v => .ok (ns, [toString v])
    | none => .error ("NameError", "name " ++ x ++ " is not defined")
  | .raiseMsg msg => .error ("RuntimeError", msg)

/-- Evaluate a program: statements run in order; a runtime fault stops
execution but keeps the mutations and output committed before it. -/
def evalProg (ns : NameSpace) : List Stmt → NameSpace × List String × Option (String × String)
  | [] => (ns, [], none)
  | s :: rest =>
    match evalStmt ns s with
    | .error f => (ns, [], some f)
    | .ok (ns', out) =>
      let (ns'', out', f) := evalProg ns' rest
      (ns'', out ++ out', f)

/-- The surfaced message of a runtime fault: the fault's kind and message,
as the spec requires a `RuntimeFault` to carry both. -/
def runtimeMsg (kind msg : String) : String := kind ++ ": " ++ msg

/-- Modelled from the spec: `Execution Engine.execute(context, source)`.
Compiles the source; on a compile fault returns `CompileError` before any
evaluation occurs (the Context is returned untouched); otherwise evaluates
against the Context's namespace and returns success with captured output,
or a structured `RuntimeFault` carrying the fault's kind and message. -/
def execute (ctx : Context) (source : String) : Context × ExecutionResult :=
  match compile source with
  | .error msg => (ctx, .error .CompileError msg)
  | .ok prog =>
    let r := evalProg ctx.globals prog
    ({ ctx with globals := r.1 },
      match r.2.2 with
      | none => .ok r.2.1
      | some f => .error .RuntimeFault (runtimeMsg f.1 f.2))

/-- An Interpreter Identifier: "an opaque, process-unique handle assigned
at creation time; never reused while the interpreter is alive; invalidated
on destruction". -/
abbrev Ident := Nat

/-- Modelled from the spec: the Interpreter Registry, a "process-wide table
mapping interpreter identifiers to Interpreter Contexts".  `next` is the
next fresh identifier; identifiers are allocated monotonically and never
reused. -/
structure Registry where
  next : Ident
  table : Ident → Option Context

/-- The empty registry. -/
def Registry.empty : Registry := { next := 0, table := fun _ => none }

/-- Modelled from the spec: `create() -> InterpreterIdentifier` "allocates
a fresh Context, registers it under a new unique identifier, returns the
identifier".  Resource exhaustion is not modelled, so creation always
succeeds. -/
def Registry.create (r : Registry) : Registry × Ident :=
  ({ next := r.next + 1,
     table := fun j => if j = r.next then some Context.init else r.table j },
   r.next)

/-- Modelled from the spec: `lookup(id) -> Context` "returns the Context
for a live identifier; fails with `UnknownInterpreter` if the identifier
was never issued or has been destroyed". -/
def Registry.lookup (r : Registry) (id : Ident) : Except ErrKind Context :=
  match r.table id with
  | some ctx => .ok ctx
  | none => .error .UnknownInterpreter

/-- Modelled from the spec: `destroy(id)` "releases the Context and
invalidates the identifier; ... destroying an already-destroyed or unknown
identifier fails with `UnknownInterpreter` (idempotent failure, not silent
success)". -/
def Registry.destroy (r : Registry) (id : Ident) : Except ErrKind Registry :=
  match r.table id with
  | some _ => .ok { r with table := fun j => if j = id then none else r.table j }
  | none => .error .UnknownInterpreter

/-- Write an updated Context back under a live identifier. -/
def Registry.setCtx (r : Registry) (id : Ident) (ctx : Context) : Registry :=
  { r with table := fun j => if j = id then some ctx else r.table j }

/-- Modelled from the spec: a Handle is a "caller-facing reference to one
Interpreter Context", bound to its identifier. -/
structure Handle where
  id : Ident
deriving DecidableEq, Repr

/-- Modelled from the spec: the Runtime Coordinator, "the top-level API
surface", a thin façade over the Registry and the Execution Engine. -/
structure Coordinator where
  reg : Registry

/-- The initial Coordinator: no interpreter exists yet. -/
def Coordinator.init : Coordinator := { reg := Registry.empty }

/-- Modelled from the spec: `create_interpreter() -> Handle` "wraps
Registry.create and returns a caller-facing handle object bound to that
identifier"; the config argument is optional and not required. -/
def create_interpreter (c : Coordinator) : Coordinator × Handle :=
  let (r', id) := c.reg.create
  ({ reg := r' }, { id := id })

/-- Modelled from the spec: `Handle.run_code(source) -> ExecutionResult`
"resolves the handle to its Context via Registry.lookup, then calls
Execution Engine.execute"; a failed lookup is returned as a structured
`UnknownInterpreter` result. -/
def run_code (c : Coordinator) (h : Handle) (source : String) :
    Coordinator × ExecutionResult :=
  match c.reg.lookup h.id with
  | .error k => (c, .error k "interpreter not found")
  | .ok ctx =>
    ({ reg := c.reg.setCtx h.id (execute ctx source).1 }, (execute ctx source).2)

/-- Modelled from the spec: `Handle.close()` "calls Registry.destroy";
closing an already-closed Handle fails with `UnknownInterpreter`. -/
def Handle.close (c : Coordinator) (h : Handle) :
    Coordinator × Option ErrKind :=
  match c.reg.destroy h.id with
  | .ok r' => ({ reg := r' }, none)
  | .error k => (c, some k)

/-- One public Coordinator call, for reasoning about arbitrary subsequent
call sequences. -/
inductive Op where
  | create
  | run (h : Handle) (source : String)
  | close (h : Handle)

/-- The Coordinator state after one public call (results discarded). -/
def stepOp (c : Coordinator) : Op → Coordinator
  | .create => (create_interpreter c).1
  | .run h src => (run_code c h src).1
  | .close h => (Handle.close c h).1

/-- The Coordinator state after a sequence of public calls. -/
def runOps (c : Coordinator) : List Op → Coordinator
  | [] => c
  | op :: rest => runOps (stepOp c op) rest

/-- Modelled from the spec: the Execution Engine "binds itself to the given
Context for the duration of the call (single binding at a time per
Context)".  `bound` is the list of Context identifiers currently holding an
Engine binding. -/
structure EngineState where
  bound : List Ident
deriving DecidableEq, Repr

/-- The Engine state before any execution starts. -/
def EngineState.start : EngineState := { bound := [] }

/-- Modelled from the spec: a thread entering `run_code` tries to bind the
Engine to the Handle's Context.  If the Context already holds a binding the
attempt fails fast with `ContextBusy`; otherwise the binding is taken.  The
spec leaves blocking versus failing fast as a configuration choice; the
fail-fast policy is modelled. -/
def EngineState.bind (s : EngineState) (id : Ident) : EngineState × Option ErrKind :=
  if id ∈ s.bound then (s, some .ContextBusy)
  else ({ bound := id :: s.bound }, none)

/-- A thread leaving `run_code` releases its Context's binding. -/
def EngineState.release (s : EngineState) (id : Ident) : EngineState :=
  { bound := s.bound.erase id }

/-- A binding event observed by the Engine: some thread tries to bind a
Context, or releases it. -/
inductive BindEvent where
  | tryBind (id : Ident)
  | release (id : Ident)

/-- The Engine state after a sequence of binding events from concurrently
running threads (an arbitrary interleaving). -/
def runEvents (s : EngineState) : List BindEvent → EngineState
  | [] => s
  | .tryBind id :: rest => runEvents (s.bind id).1 rest
  | .release id :: rest => runEvents (s.release id) rest

/-- Registry well-formedness: every live identifier was issued, i.e. is
below the allocation counter. -/
def Registry.WF (r : Registry) : Prop :=
  ∀ id ctx, r.table id = some ctx → id < r.next

/-- An identifier that has been invalidated: no Context is registered under
it, and it was issued in the past, so it can never be issued again. -/
def Registry.dead (r : Registry) (id : Ident) : Prop :=
  r.table id = none ∧ id < r.next

/-! ### Demonstration states used by the concrete witnesses -/

/-- A Coordinator holding one freshly created interpreter, and its Handle. -/
def demo1 : Coordinator × Handle := create_interpreter Coordinator.init

/-- A second interpreter created after the first; `demo2.1` holds both. -/
def demo2 : Coordinator × Handle := create_interpreter demo1.1

/-- The registry holding the single demonstration interpreter. -/
def demoReg : Registry := demo1.1.reg

/-- The demonstration registry after destroying identifier 0. -/
def demoRegDestroyed : Registry :=
  { next := 1, table := fun j => if j = 0 then none else demoReg.table j }

/-! ### Basic lemmas about the Registry and the Coordinator -/

theorem Registry.lookup_eq_ok {r : Registry} {id : Ident} {ctx : Context} :
    r.lookup id = .ok ctx ↔ r.table id = some ctx := by
  unfold Registry.lookup
  cases h : r.table id <;> simp

theorem Registry.lookup_eq_error {r : Registry} {id : Ident} {k : ErrKind} :
    r.lookup id = .error k ↔ (r.table id = none ∧ k = .UnknownInterpreter) := by
  unfold Registry.lookup
  cases h : r.table id <;> simp
  exact eq_comm

/-- `run_code` touches no table entry other than its own Handle's. -/
theorem run_code_table_other (c : Coordinator) (h : Handle) (src : String)
    (j : Ident) (hj : j ≠ h.id) :
    (run_code c h src).1.reg.table j = c.reg.table j := by
  unfold run_code
  cases hl : c.reg.lookup h.id with
  | error k => rfl
  | ok ctx => simp [Registry.setCtx, hj]

/-- The result of `run_code` depends on the Coordinator state only through
the table entry of the Handle it targets. -/
theorem run_code_result_congr (c₁ c₂ : Coordinator) (h : Handle) (src : String)
    (heq : c₁.reg.table h.id = c₂.reg.table h.id) :
    (run_code c₁ h src).2 = (run_code c₂ h src).2 := by
  unfold run_code Registry.lookup
  rw [heq]
  cases c₂.reg.table h.id <;> rfl

/-- The Execution Engine only ever reports success, a `CompileError` or a
`RuntimeFault`; it cannot produce any other fault kind. -/
theorem execute_result_cases (ctx : Context) (src : String) :
    (∃ out, (execute ctx src).2 = .ok out) ∨
    (∃ m, (execute ctx src).2 = .error .CompileError m) ∨
    (∃ m, (execute ctx src).2 = .error .RuntimeFault m) := by
  unfold execute
  cases hc : compile src with
  | error msg => right; left; exact ⟨msg, rfl⟩
  | ok prog =>
    cases hf : (evalProg ctx.globals prog).2.2 with
    | none => left; exact ⟨(evalProg ctx.globals prog).2.1, by simp [hf]⟩
    | some f => right; right; exact ⟨runtimeMsg f.1 f.2, by simp [hf]⟩

/-- `create_interpreter` leaves every allocation below the old counter in
place and bumps the counter. -/
theorem create_table (c : Coordinator) (j : Ident) :
    (create_interpreter c).1.reg.table j =
      if j = c.reg.next then some Context.init else c.reg.table j := rfl

theorem create_next (c : Coordinator) :
    (create_interpreter c).1.reg.next = c.reg.next + 1 := rfl

theorem run_code_next (c : Coordinator) (h : Handle) (src : String) :
    (run_code c h src).1.reg.next = c.reg.next := by
  unfold run_code
  cases hl : c.reg.lookup h.id <;> rfl

theorem close_next (c : Coordinator) (h : Handle) :
    (Handle.close c h).1.reg.next = c.reg.next := by
  unfold Handle.close Registry.destroy
  cases ht : c.reg.table h.id <;> rfl

/-- A table entry that is empty stays empty across `run_code`. -/
theorem run_code_table_none (c : Coordinator) (h : Handle) (src : String)
    (j : Ident) (hj : c.reg.table j = none) :
    (run_code c h src).1.reg.table j = none := by
  unfold run_code
  cases hl : c.reg.lookup h.id with
  | error k => exact hj
  | ok ctx =>
    have hne : j ≠ h.id := by
      intro e
      rw [Registry.lookup_eq_ok] at hl
      rw [e, hl] at hj
      cases hj
    simp [Registry.setCtx, hne, hj]

/-- A table entry that is empty stays empty across `Handle.close`. -/
theorem close_table_none (c : Coordinator) (h : Handle)
    (j : Ident) (hj : c.reg.table j = none) :
    (Handle.close c h).1.reg.table j = none := by
  unfold Handle.close Registry.destroy
  cases ht : c.reg.table h.id with
  | none => exact hj
  | some ctx =>
    by_cases e : j = h.id
    · simp [e]
    · simp [e, hj]

/-- One public Coordinator call preserves deadness of an identifier. -/
theorem dead_stepOp (c : Coordinator) (op : Op) (id : Ident)
    (hd : c.reg.dead id) : (stepOp c op).reg.dead id := by
  obtain ⟨hnone, hlt⟩ := hd
  cases op with
  | create =>
    have hne : id ≠ c.reg.next := Nat.ne_of_lt hlt
    refine ⟨?_, ?_⟩
    · show (if id = c.reg.next then some Context.init else c.reg.table id) = none
      rw [if_neg hne, hnone]
    · show id < c.reg.next + 1
      exact Nat.lt_succ_of_lt hlt
  | run h src =>
    exact ⟨run_code_table_none c h src id hnone, by rw [show (stepOp c (.run h src)) = (run_code c h src).1 from rfl, run_code_next]; exact hlt⟩
  | close h =>
    exact ⟨close_table_none c h id hnone, by rw [show (stepOp c (.close h)) = (Handle.close c h).1 from rfl, close_next]; exact hlt⟩

/-- Any sequence of public Coordinator calls preserves deadness. -/
theorem dead_runOps (c : Coordinator) (ops : List Op) (id : Ident)
    (hd : c.reg.dead id) : (runOps c ops).reg.dead id := by
  induction ops generalizing c with
  | nil => exact hd
  | cons op rest ih => exact ih (stepOp c op) (dead_stepOp c op id hd)

/-- `run_code` on a dead identifier reports `UnknownInterpreter` and leaves
the Coordinator untouched. -/
theorem run_code_dead (c : Coordinator) (h : Handle)
    (hnone : c.reg.table h.id = none) (src : String) :
    run_code c h src = (c, .error .UnknownInterpreter "interpreter not found") := by
  unfold run_code Registry.lookup
  rw [hnone]

/-- `run_code` on a live Handle dispatches to the Execution Engine and
stores the updated Context back under the Handle's identifier. -/
theorem run_code_live (c : Coordinator) (h : Handle) (ctx : Context) (src : String)
    (hc : c.reg.table h.id = some ctx) :
    run_code c h src =
      ({ reg := c.reg.setCtx h.id (execute ctx src).1 }, (execute ctx src).2) := by
  unfold run_code
  rw [Registry.lookup_eq_ok.mpr hc]

/-- After `run_code` on a live Handle, the Handle's table entry holds the
Context produced by the Execution Engine. -/
theorem run_code_live_table (c : Coordinator) (h : Handle) (ctx : Context) (src : String)
    (hc : c.reg.table h.id = some ctx) :
    (run_code c h src).1.reg.table h.id = some (execute ctx src).1 := by
  rw [run_code_live c h ctx src hc]
  simp [Registry.setCtx]

/-- `run_code` on a live Handle never reports `UnknownInterpreter`. -/
theorem run_code_live_not_unknown (c : Coordinator) (h : Handle) (ctx : Context)
    (hc : c.reg.table h.id = some ctx) (src m : String) :
    (run_code c h src).2 ≠ .error .UnknownInterpreter m := by
  rw [run_code_live c h ctx src hc]
  rcases execute_result_cases ctx src with ⟨out, he⟩ | ⟨e, he⟩ | ⟨e, he⟩ <;>
    simp [he]

/-- Evaluating a single-assignment program extends the namespace and
produces no output and no fault. -/
theorem execute_assign (ctx : Context) (src x : String) (v : Value)
    (h : compile src = .ok [.assignLit x v]) :
    execute ctx src = ({ ctx with globals := nsSet ctx.globals x v }, .ok []) := by
  unfold execute
  rw [h]
  simp [evalProg, evalStmt]

/-- Printing a bound name succeeds with the value as captured output and
leaves the Context unchanged. -/
theorem execute_print_hit (ctx : Context) (src x : String) (v : Value)
    (hsrc : compile src = .ok [.printVar x])
    (hv : nsLookup ctx.globals x = some v) :
    execute ctx src = (ctx, .ok [toString v]) := by
  unfold execute
  rw [hsrc]
  simp [evalProg, evalStmt, hv]

/-- Printing an unbound name is a name-resolution `RuntimeFault` that
leaves the Context unchanged. -/
theorem execute_print_miss (ctx : Context) (src x : String)
    (hsrc : compile src = .ok [.printVar x])
    (hv : nsLookup ctx.globals x = none) :
    execute ctx src =
      (ctx, .error .RuntimeFault
        (runtimeMsg "NameError" ("name " ++ x ++ " is not defined"))) := by
  unfold execute
  rw [hsrc]
  simp [evalProg, evalStmt, hv]

/-- The most recent binding of a name wins. -/
theorem nsLookup_nsSet (ns : NameSpace) (x : String) (v : Value) :
    nsLookup (nsSet ns x v) x = some v := by
  simp [nsSet, nsLookup]

/-- The initial Coordinator's registry is well-formed. -/
theorem init_WF : Coordinator.init.reg.WF :=
  fun _ _ h => Option.noConfusion h

/-- `create_interpreter` preserves registry well-formedness. -/
theorem create_WF (c : Coordinator) (hwf : c.reg.WF) :
    (create_interpreter c).1.reg.WF := by
  intro id ctx h
  rw [create_table] at h
  rw [create_next]
  by_cases e : id = c.reg.next
  · rw [e]
    exact Nat.lt_succ_self _
  · rw [if_neg e] at h
    exact Nat.lt_succ_of_lt (hwf id ctx h)

/-- A freshly created interpreter is live with the baseline Context. -/
theorem create_table_self (c : Coordinator) :
    (create_interpreter c).1.reg.table (create_interpreter c).2.id =
      some Context.init := by
  rw [show (create_interpreter c).2.id = c.reg.next from rfl, create_table,
    if_pos rfl]

/-- Running the empty source on a freshly created interpreter succeeds with
empty captured output. -/
theorem run_empty_fresh (c : Coordinator) :
    (run_code (create_interpreter c).1 (create_interpreter c).2 "").2 = .ok [] := by
  rw [run_code_live _ _ Context.init "" (create_table_self c)]
  rfl

/-! ### The claims -/

/-- C1: for every pair of distinct live Interpreter Contexts A and B, no
mutable namespace state is shared between them: running code against A's
Handle leaves B's table entry untouched, and any subsequent `run_code`
against B returns exactly what it would have returned had A's run never
happened, so no mutation through A is observable from B. -/
theorem C1_interpreter_isolation (c : Coordinator) (hA hB : Handle)
    (hne : hB.id ≠ hA.id) (srcA srcB : String) :
    (run_code c hA srcA).1.reg.table hB.id = c.reg.table hB.id ∧
    (run_code (run_code c hA srcA).1 hB srcB).2 = (run_code c hB srcB).2 := by
  have ht := run_code_table_other c hA srcA hB.id hne
  exact ⟨ht, run_code_result_congr _ _ hB srcB ht⟩

/-- Witness for C1: with two live interpreters, defining `x` through the
first Handle is invisible to a `print(x)` through the second. -/
theorem C1_interpreter_isolation_witness :
    (run_code demo2.1 demo1.2 "x = 5").1.reg.table demo2.2.id =
        demo2.1.reg.table demo2.2.id ∧
    (run_code (run_code demo2.1 demo1.2 "x = 5").1 demo2.2 "print(x)").2 =
      (run_code demo2.1 demo2.2 "print(x)").2 :=
  C1_interpreter_isolation demo2.1 demo1.2 demo2.2 (by decide) "x = 5" "print(x)"

/-- C2: a `RuntimeFault` reported by `run_code` is a structured result (the
model is a total function, so no call terminates the host): afterwards the
faulting Handle's Context is still registered, further `run_code` calls on
it never report `UnknownInterpreter`, and every other interpreter's table
entry and every one of its subsequent `run_code` results are exactly as if
the fault had never happened. -/
theorem C2_fault_containment (c c' : Coordinator) (h : Handle) (src m : String)
    (hrun : run_code c h src = (c', .error .RuntimeFault m)) :
    (∃ ctx', c'.reg.table h.id = some ctx') ∧
    (∀ src2 m2, (run_code c' h src2).2 ≠ .error .UnknownInterpreter m2) ∧
    (∀ h2 : Handle, h2.id ≠ h.id →
      c'.reg.table h2.id = c.reg.table h2.id ∧
      ∀ src2, (run_code c' h2 src2).2 = (run_code c h2 src2).2) := by
  obtain ⟨ctx, hctx⟩ : ∃ ctx, c.reg.table h.id = some ctx := by
    cases ht : c.reg.table h.id with
    | some ctx => exact ⟨ctx, rfl⟩
    | none =>
      rw [run_code_dead c h ht src] at hrun
      simp only [Prod.mk.injEq] at hrun
      cases hrun.2
  have hc' : c' = (run_code c h src).1 := by rw [hrun]
  have htable : c'.reg.table h.id = some (execute ctx src).1 := by
    rw [hc']
    exact run_code_live_table c h ctx src hctx
  refine ⟨⟨(execute ctx src).1, htable⟩, ?_, ?_⟩
  · intro src2 m2
    exact run_code_live_not_unknown c' h ((execute ctx src).1) htable src2 m2
  · intro h2 hne
    have hother : c'.reg.table h2.id = c.reg.table h2.id := by
      rw [hc']
      exact run_code_table_other c h src h2.id hne
    exact ⟨hother, fun src2 => run_code_result_congr c' c h2 src2 hother⟩

/-- Witness for C2: `print(x)` on a fresh interpreter raises a name-error
`RuntimeFault`; the interpreter stays registered, keeps answering without
`UnknownInterpreter`, and the other interpreter is untouched. -/
theorem C2_fault_containment_witness :
    (∃ ctx', (run_code demo2.1 demo1.2 "print(x)").1.reg.table demo1.2.id =
        some ctx') ∧
    (∀ src2 m2, (run_code (run_code demo2.1 demo1.2 "print(x)").1 demo1.2 src2).2 ≠
        .error .UnknownInterpreter m2) ∧
    (∀ h2 : Handle, h2.id ≠ demo1.2.id →
      (run_code demo2.1 demo1.2 "print(x)").1.reg.table h2.id =
          demo2.1.reg.table h2.id ∧
      ∀ src2, (run_code (run_code demo2.1 demo1.2 "print(x)").1 h2 src2).2 =
          (run_code demo2.1 h2 src2).2) :=
  C2_fault_containment demo2.1 (run_code demo2.1 demo1.2 "print(x)").1 demo1.2
    "print(x)" (runtimeMsg "NameError" ("name " ++ "x" ++ " is not defined")) rfl

/-- C3: a name defined by one `run_code` call is visible to the next
`run_code` call on the same Handle, which prints its value, while
referencing it through a different live Handle whose namespace lacks the
name reports a name-resolution `RuntimeFault` — a structured result, not a
crash. -/
theorem C3_definition_visibility (c : Coordinator) (hA hB : Handle)
    (hne : hB.id ≠ hA.id) (ctxA ctxB : Context)
    (hAlive : c.reg.table hA.id = some ctxA)
    (hBlive : c.reg.table hB.id = some ctxB)
    (x srcDef srcRef : String) (v : Value)
    (hdef : compile srcDef = .ok [.assignLit x v])
    (href : compile srcRef = .ok [.printVar x])
    (hmiss : nsLookup ctxB.globals x = none) :
    (run_code c hA srcDef).2 = .ok [] ∧
    (run_code (run_code c hA srcDef).1 hA srcRef).2 = .ok [toString v] ∧
    (run_code (run_code c hA srcDef).1 hB srcRef).2 =
      .error .RuntimeFault
        (runtimeMsg "NameError" ("name " ++ x ++ " is not defined")) := by
  have hexec := execute_assign ctxA srcDef x v hdef
  refine ⟨?_, ?_, ?_⟩
  · rw [run_code_live c hA ctxA srcDef hAlive, hexec]
  · have htable := run_code_live_table c hA ctxA srcDef hAlive
    rw [hexec] at htable
    rw [run_code_live _ hA _ srcRef htable,
      execute_print_hit _ srcRef x v href (nsLookup_nsSet ctxA.globals x v)]
  · have htable : (run_code c hA srcDef).1.reg.table hB.id = some ctxB := by
      rw [run_code_table_other c hA srcDef hB.id hne, hBlive]
    rw [run_code_live _ hB ctxB srcRef htable,
      execute_print_miss ctxB srcRef x href hmiss]

/-- Witness for C3: `x = 5` then `print(x)` on the first Handle prints 5;
`print(x)` on the second Handle is a name-error `RuntimeFault`. -/
theorem C3_definition_visibility_witness :
    (run_code demo2.1 demo1.2 "x = 5").2 = .ok [] ∧
    (run_code (run_code demo2.1 demo1.2 "x = 5").1 demo1.2 "print(x)").2 =
      .ok [toString (5 : Value)] ∧
    (run_code (run_code demo2.1 demo1.2 "x = 5").1 demo2.2 "print(x)").2 =
      .error .RuntimeFault
        (runtimeMsg "NameError" ("name " ++ "x" ++ " is not defined")) :=
  C3_definition_visibility demo2.1 demo1.2 demo2.2 (by decide)
    Context.init Context.init rfl rfl "x" "x = 5" "print(x)" 5 rfl rfl rfl

/-- C4: once `Handle.close()` has succeeded, every later `run_code` call on
that same Handle — after any number of further public Coordinator calls,
including creations of new interpreters — returns `UnknownInterpreter`. -/
theorem C4_closed_handle_unknown (c : Coordinator) (h : Handle)
    (hwf : c.reg.WF) (hok : (Handle.close c h).2 = none) :
    ∀ (ops : List Op) (src : String),
      (run_code (runOps (Handle.close c h).1 ops) h src).2 =
        .error .UnknownInterpreter "interpreter not found" := by
  cases ht : c.reg.table h.id with
  | none =>
    unfold Handle.close Registry.destroy at hok
    rw [ht] at hok
    cases hok
  | some ctx =>
    have hdead : (Handle.close c h).1.reg.dead h.id := by
      constructor
      · show ((Handle.close c h).1.reg.table h.id) = none
        unfold Handle.close Registry.destroy
        rw [ht]
        simp
      · rw [close_next]
        exact hwf h.id ctx ht
    intro ops src
    have hdead2 := dead_runOps (Handle.close c h).1 ops h.id hdead
    rw [run_code_dead _ h hdead2.1 src]

/-- Witness for C4: close the only interpreter, then create a fresh one;
running code on the closed Handle still reports `UnknownInterpreter`. -/
theorem C4_closed_handle_unknown_witness :
    (run_code (runOps (Handle.close demo1.1 demo1.2).1 [.create]) demo1.2 "x = 5").2 =
      .error .UnknownInterpreter "interpreter not found" :=
  C4_closed_handle_unknown demo1.1 demo1.2
    (create_WF Coordinator.init init_WF) rfl [.create] "x = 5"

/-- C5: a source string that fails to compile makes the Execution Engine
return `CompileError` with the Context exactly unchanged — no evaluation
and no partial side effect — and therefore `run_code` on a live Handle
returns `CompileError` and leaves the Handle's namespace byte-for-byte
unchanged. -/
theorem C5_compile_error_pure (src e : String)
    (hbad : compile src = .error e) :
    (∀ ctx : Context, execute ctx src = (ctx, .error .CompileError e)) ∧
    (∀ (c : Coordinator) (h : Handle) (ctx : Context),
      c.reg.table h.id = some ctx →
      (run_code c h src).2 = .error .CompileError e ∧
      (run_code c h src).1.reg.table h.id = some ctx) := by
  have hexec : ∀ ctx : Context, execute ctx src = (ctx, .error .CompileError e) := by
    intro ctx
    unfold execute
    rw [hbad]
  refine ⟨hexec, ?_⟩
  intro c h ctx hc
  rw [run_code_live c h ctx src hc, hexec ctx]
  exact ⟨rfl, by simp [Registry.setCtx, hc]⟩

/-- Witness for C5: the malformed line `x =` yields `CompileError` and the
fresh Context comes back exactly as it went in. -/
theorem C5_compile_error_pure_witness :
    execute Context.init "x =" =
      (Context.init, .error .CompileError "invalid statement: x =") :=
  (C5_compile_error_pure "x =" "invalid statement: x =" rfl).1 Context.init

/-- C6: `run_code` with the empty source string on a freshly created Handle
is a no-op success: the result is `ok` with empty captured output and the
fresh Handle's Context is left exactly the baseline Context. -/
theorem C6_empty_source_noop (c : Coordinator) :
    (run_code (create_interpreter c).1 (create_interpreter c).2 "").2 = .ok [] ∧
    (run_code (create_interpreter c).1 (create_interpreter c).2 "").1.reg.table
        (create_interpreter c).2.id = some Context.init :=
  ⟨run_empty_fresh c,
   run_code_live_table _ _ Context.init "" (create_table_self c)⟩

/-- C7: destroying an identifier twice fails with `UnknownInterpreter`;
after a successful destroy, every subsequent `lookup` of that identifier —
after any further public calls — fails with `UnknownInterpreter`; and
destroying an identifier that was never issued fails with
`UnknownInterpreter`, never silently succeeding. -/
theorem C7_destroy_invalidation (r r' : Registry) (id : Ident)
    (hwf : r.WF) (hdes : r.destroy id = .ok r') :
    r'.destroy id = .error .UnknownInterpreter ∧
    (∀ ops : List Op,
      (runOps { reg := r' } ops).reg.lookup id = .error .UnknownInterpreter) ∧
    (∀ (s : Registry) (j : Ident), s.WF → s.next ≤ j →
      s.destroy j = .error .UnknownInterpreter) := by
  obtain ⟨ctx, ht⟩ : ∃ ctx, r.table id = some ctx := by
    cases ht : r.table id with
    | some ctx => exact ⟨ctx, rfl⟩
    | none =>
      unfold Registry.destroy at hdes
      rw [ht] at hdes
      cases hdes
  have hr' : r' = { r with table := fun j => if j = id then none else r.table j } := by
    unfold Registry.destroy at hdes
    rw [ht] at hdes
    injection hdes with h2
    exact h2.symm
  have hnone : r'.table id = none := by
    rw [hr']
    simp
  have hdead : Registry.dead r' id := by
    refine ⟨hnone, ?_⟩
    rw [hr']
    exact hwf id ctx ht
  refine ⟨?_, ?_, ?_⟩
  · unfold Registry.destroy
    rw [hnone]
  · intro ops
    have hd := dead_runOps { reg := r' } ops id hdead
    unfold Registry.lookup
    rw [hd.1]
  · intro s j hswf hj
    have hsn : s.table j = none := by
      cases hs : s.table j with
      | none => rfl
      | some ctx2 => exact absurd (hswf j ctx2 hs) (Nat.not_lt.mpr hj)
    unfold Registry.destroy
    rw [hsn]

/-- Witness for C7: destroy the only interpreter, destroy it again —
`UnknownInterpreter`; look it up after creating a fresh interpreter —
still `UnknownInterpreter`. -/
theorem C7_destroy_invalidation_witness :
    demoRegDestroyed.destroy 0 = .error .UnknownInterpreter ∧
    (runOps { reg := demoRegDestroyed } [.create]).reg.lookup 0 =
      .error .UnknownInterpreter :=
  ⟨(C7_destroy_invalidation demoReg demoRegDestroyed 0
      (create_WF Coordinator.init init_WF) rfl).1,
   (C7_destroy_invalidation demoReg demoRegDestroyed 0
      (create_WF Coordinator.init init_WF) rfl).2.1 [.create]⟩

/-- C8: execution within one Context is serialized — along any interleaving
of binding events from concurrently running threads the Engine holds at
most one binding per Context (the bound list stays duplicate-free), and a
`run_code` entering while its Context is already bound fails fast with
`ContextBusy` without touching the Engine state, so two threads on the same
Handle are mutually exclusive and never race on the shared namespace. -/
theorem C8_serialized_execution :
    (∀ events : List BindEvent,
      (runEvents EngineState.start events).bound.Nodup) ∧
    (∀ (s : EngineState) (id : Ident), id ∈ s.bound →
      s.bind id = (s, some .ContextBusy)) := by
  constructor
  · have key : ∀ (events : List BindEvent) (s : EngineState),
        s.bound.Nodup → (runEvents s events).bound.Nodup := by
      intro events
      induction events with
      | nil => exact fun _ hs => hs
      | cons e rest ih =>
        intro s hs
        cases e with
        | tryBind id =>
          show (runEvents (s.bind id).1 rest).bound.Nodup
          apply ih
          unfold EngineState.bind
          by_cases hm : id ∈ s.bound
          · rw [if_pos hm]
            exact hs
          · rw [if_neg hm]
            exact List.nodup_cons.mpr ⟨hm, hs⟩
        | release id =>
          show (runEvents (s.release id) rest).bound.Nodup
          exact ih _ ((List.erase_sublist id s.bound).nodup hs)
    exact fun events => key events EngineState.start List.nodup_nil
  · intro s id hm
    unfold EngineState.bind
    rw [if_pos hm]

/-- Witness for C8: with Context 0 already bound, a second bind attempt on
Context 0 fails fast with `ContextBusy` and changes nothing. -/
theorem C8_serialized_execution_witness :
    EngineState.bind ⟨[0]⟩ 0 = (⟨[0]⟩, some .ContextBusy) :=
  C8_serialized_execution.2 ⟨[0]⟩ 0 (by decide)

/-- C9: `create_interpreter` is callable with no config argument (the model
takes none) and the Handle it returns is immediately usable: its Context is
registered with the isolated baseline namespace and a `run_code` call
succeeds with no intervening initialization step. -/
theorem C9_create_immediately_usable (c : Coordinator) :
    (create_interpreter c).1.reg.table (create_interpreter c).2.id =
      some Context.init ∧
    (run_code (create_interpreter c).1 (create_interpreter c).2 "").2 = .ok [] :=
  ⟨create_table_self c, run_empty_fresh c⟩

end SubInterp
